import Mathlib

/-!
Verification development for the LLM Nexus orchestration app (`src/app.py`).

The repository's single source file is a Streamlit script whose `main`
function drives one run: login, rate-limit check, prompt validation, model
selection, parallel dispatch, and four result tabs (visual cards, raw JSON,
cost report, performance charts).  We embed `main` as a pure function that
returns the ordered trace of the observable actions it performs, together
with the run outcome and the updated rate-limiter state.

The helper modules (`utils.rate_limiter`, `utils.router`, `utils.parallel`,
`utils.report`, `auth`) are imported by `app.py` but are not part of the
source tree; where a claim depends on their internals they are modelled from
the design spec, and otherwise they are abstract parameters of the run.
-/

namespace LLMNexus

/-- One metric row of `data/metrics/metrics.csv` as read in the performance
tab (`pd.read_csv`): timestamp, model id, latency, response length.
Numeric fields are embedded as rationals. -/
structure MetricRecord where
  timestamp : ℚ
  model : String
  latency : ℚ
  responseLength : ℚ
  deriving DecidableEq

/-- Modelled from the spec: per-identity sliding-window state of the rate
limiter (`RateWindowState`, spec section 3); the implementing module
`utils.rate_limiter` is absent from the source tree. -/
structure RateWindowState where
  windowStart : ℚ
  count : ℕ
  deriving DecidableEq

/-- Modelled from the spec: the in-memory rate limiter (spec section 4.1), a
limit, a window length, and one `RateWindowState` per identity; the
implementing module `utils.rate_limiter` is absent from the source tree. -/
structure RateLimiter where
  limit : ℕ
  windowLen : ℚ
  states : String → Option RateWindowState

/-- Modelled from the spec: `check_limit` (spec section 4.1); the
implementing module `utils.rate_limiter` is absent from the source tree.
If no window exists for the identity or the current window has expired,
a new window starts with count 1 and the request is allowed; otherwise the
count is incremented and the request is allowed iff the new count is within
the limit (a rejected attempt still counts). -/
def check_limit (rl : RateLimiter) (identity : String) (now : ℚ) :
    Bool × RateLimiter :=
  match rl.states identity with
  | none =>
      (true,
       { rl with states := fun k =>
           if k = identity then some ⟨now, 1⟩ else rl.states k })
  | some w =>
      if rl.windowLen ≤ now - w.windowStart then
        (true,
         { rl with states := fun k =>
             if k = identity then some ⟨now, 1⟩ else rl.states k })
      else
        (decide (w.count + 1 ≤ rl.limit),
         { rl with states := fun k =>
             if k = identity then some ⟨w.windowStart, w.count + 1⟩
             else rl.states k })

/-- The guard `not prompt.strip()` of `src/app.py:169`: the stripped
prompt is falsy exactly when the prompt is empty or consists of whitespace
only, i.e. when every character is whitespace. -/
def isBlank (s : String) : Bool := s.toList.all Char.isWhitespace

/-- The four options of the "Target Objective" selectbox
(`src/app.py:145-148`). -/
def objectiveOptions : List String :=
  ["General", "Coding", "Fast Response", "Cost Saving"]

/-- `st.selectbox` returns one of its options; the choice is an index into
the option list. -/
def selectbox (options : List String) (choice : Fin options.length) : String :=
  options.get choice

/-- The observable actions of one script run of `main`, in execution
order. -/
inductive Event where
  /-- `login()` ran (`src/app.py:131`). -/
  | login
  /-- `check_limit(st.session_state.user)` was called and returned
  `allowed` (`src/app.py:165`). -/
  | rateCheck (identity : String) (allowed : Bool)
  /-- `st.error("Rate limit reached.")` (`src/app.py:166`). -/
  | rateLimitErrorMsg
  /-- `st.warning("Please enter a prompt.")` (`src/app.py:170`). -/
  | invalidPromptWarning
  /-- `choose_models(task)` returned `models` (`src/app.py:174`). -/
  | selectModels (task : String) (models : List String)
  /-- `run_parallel(prompt, models)` was called (`src/app.py:176`): the
  backends receive exactly the prompt and the model list. -/
  | dispatch (prompt : String) (models : List String)
  /-- Tab "Visual" rendered one model card per response, column `i`
  holding entry `i` of the response mapping (`src/app.py:188-200`). -/
  | renderVisual (cards : List (ℕ × String × String))
  /-- Tab "Raw JSON" rendered the response mapping (`src/app.py:203`). -/
  | renderJson (responses : List (String × String))
  /-- `generate_report(prompt, responses)` ran (`src/app.py:206`). -/
  | reportGenerated (prompt : String) (responses : List (String × String))
  /-- The "Estimated Cost" metric showed `value` (`src/app.py:209`). -/
  | costMetricShown (value : String)
  /-- `st.warning("No metrics available.")` (`src/app.py:215`). -/
  | noMetricsWarning
  /-- The performance charts: per-model mean latency and per-model mean
  response length (`src/app.py:220-221`). -/
  | metricsCharts (avgLatency avgLength : List (String × ℚ))
  deriving DecidableEq

/-- How the script run ended. -/
inductive Outcome where
  /-- `st.stop()` because no user is in the session (`src/app.py:133`). -/
  | noUser
  /-- The run button was not pressed; only the page rendered. -/
  | idle
  /-- `st.stop()` after "Rate limit reached." (`src/app.py:167`). -/
  | rateLimited
  /-- `st.stop()` after "Please enter a prompt." (`src/app.py:171`). -/
  | invalidPrompt
  /-- `st.columns(0)` raised in the visual tab (`src/app.py:189`). -/
  | columnsError
  /-- The script ran to the end. -/
  | completed
  deriving DecidableEq

/-- The external collaborators `app.py` imports whose modules are not in
the source tree: the router and the parallel dispatcher.  `run_parallel`
returns an insertion-ordered mapping, embedded as an association list. -/
structure Env where
  choose_models : String → List String
  run_parallel : String → List String → List (String × String)

/-- The per-run inputs of the script: the session user left by `login()`,
the widget states (objective choice, prompt text, run button, sidebar
temperature and max-tokens), the clock value for the rate check, and the
state of the metrics file read by the performance tab. -/
structure RunInput where
  sessionUser : Option String
  taskIdx : Fin objectiveOptions.length
  prompt : String
  runBtn : Bool
  modelTemp : ℚ
  maxTokens : ℤ
  now : ℚ
  metricsExists : Bool
  metrics : List MetricRecord

/-- Result of one script run: the ordered event trace, the outcome, and the
rate-limiter state afterwards. -/
structure RunResult where
  trace : List Event
  outcome : Outcome
  limiter : RateLimiter

/-- `st.columns(n)`: builds `n` columns; Streamlit rejects a non-positive
column count with an exception. -/
def st_columns (n : ℕ) : Except String (List ℕ) :=
  if n = 0 then
    .error "The input argument to st.columns must be a positive integer."
  else
    .ok (List.range n)

/-- The "Visual" tab (`src/app.py:188-200`): `st.columns(len(responses))`,
then for each `i, (model, text)` in the mapping's insertion order a model
card is rendered in column `i`. -/
def visualTab (responses : List (String × String)) :
    Except String (List (ℕ × String × String)) :=
  match st_columns responses.length with
  | .error e => .error e
  | .ok _ => .ok (responses.enum.map fun p => (p.1, p.2.1, p.2.2))

/-- First-occurrence list of the distinct model ids of a record list
(the group keys of `df.groupby("model")`). -/
def metricModels (records : List MetricRecord) : List String :=
  (records.map fun r => r.model).dedup

/-- `df.groupby("model")[field].mean()` (`src/app.py:220-221`): for each
distinct model, the mean of `f` over that model's rows. -/
def groupMean (records : List MetricRecord) (f : MetricRecord → ℚ) :
    List (String × ℚ) :=
  (metricModels records).map fun m =>
    let xs := (records.filter fun r => r.model == m).map f
    (m, xs.sum / (xs.length : ℚ))

/-- The arithmetic mean of a list of rationals, as the spec words it. -/
def arithMean (xs : List ℚ) : ℚ := xs.sum / (xs.length : ℚ)

/-- The "Performance" tab (`src/app.py:212-222`): if the metrics file is
missing, a warning and no read; otherwise the grouped mean charts over the
file's records. -/
def performanceTab (fileExists : Bool) (metrics : List MetricRecord) : Event :=
  if fileExists then
    .metricsCharts (groupMean metrics fun r => r.latency)
      (groupMean metrics fun r => r.responseLength)
  else
    .noMetricsWarning

/-- The fixed string shown as "Estimated Cost" (`src/app.py:209`). -/
def estimatedCostText : String := "$0.0042"

/-- The `main` function of `src/app.py` (lines 130-222), embedded as a pure
function from the run inputs, the external collaborators and the limiter
state to the trace of observable actions, the outcome and the new limiter
state.  The statement order of the source is preserved: login gate, rate
check, prompt check, `choose_models`, `run_parallel`, then the four tabs in
order (visual, raw JSON, cost report, performance). -/
def mainRun (env : Env) (rl : RateLimiter) (inp : RunInput) : RunResult :=
  match inp.sessionUser with
  | none => ⟨[.login], .noUser, rl⟩
  | some user =>
    if inp.runBtn then
      let res := check_limit rl user inp.now
      if res.1 = false then
        ⟨[.login, .rateCheck user false, .rateLimitErrorMsg],
         .rateLimited, res.2⟩
      else if isBlank inp.prompt then
        ⟨[.login, .rateCheck user true, .invalidPromptWarning],
         .invalidPrompt, res.2⟩
      else
        let task := selectbox objectiveOptions inp.taskIdx
        let models := env.choose_models task
        let responses := env.run_parallel inp.prompt models
        match visualTab responses with
        | .error _ =>
            ⟨[.login, .rateCheck user true, .selectModels task models,
              .dispatch inp.prompt models],
             .columnsError, res.2⟩
        | .ok cards =>
            ⟨[.login, .rateCheck user true, .selectModels task models,
              .dispatch inp.prompt models, .renderVisual cards,
              .renderJson responses,
              .reportGenerated inp.prompt responses,
              .costMetricShown estimatedCostText,
              performanceTab inp.metricsExists inp.metrics],
             .completed, res.2⟩
    else ⟨[.login], .idle, rl⟩

/-! Concrete fixtures used to exercise the definitions. -/

/-- A concrete environment: a router serving two models and a dispatcher
whose backends echo the prompt. -/
def envEcho : Env :=
  ⟨fun _ => ["m1", "m2"], fun p ms => ms.map fun m => (m, p)⟩

/-- A fresh rate limiter: 5 requests per 60 second window, no state. -/
def rl0 : RateLimiter := ⟨5, 60, fun _ => none⟩

/-- A rate limiter whose window for user "u1" is already at its limit of
one request. -/
def rlFull : RateLimiter :=
  ⟨1, 60, fun k => if k = "u1" then some ⟨0, 1⟩ else none⟩

/-- A concrete accepted run: user "u1", objective "General", prompt "hi",
temperature 0, max tokens 1024. -/
def inp0 : RunInput :=
  ⟨some "u1", ⟨0, by decide⟩, "hi", true, 0, 1024, 0, false, []⟩

/-- The same run with temperature 1 and max tokens 4096. -/
def inpHot : RunInput :=
  ⟨some "u1", ⟨0, by decide⟩, "hi", true, 1, 4096, 0, false, []⟩

/-- The same run with a whitespace-only prompt. -/
def inpBlank : RunInput :=
  ⟨some "u1", ⟨0, by decide⟩, "   ", true, 0, 1024, 0, false, []⟩

/-- Three metric rows for model "A" with latencies 0.1, 0.2, 0.3 and
response lengths 5, 7, 9, as in the spec's worked example. -/
def recsA : List MetricRecord :=
  [⟨0, "A", 1/10, 5⟩, ⟨1, "A", 2/10, 7⟩, ⟨2, "A", 3/10, 9⟩]

/-! Helper lemmas shared by the claim theorems. -/

/-- Looking up a key of `l` in the association list pairing each key with
`g` of it yields `g` of the key. -/
theorem lookup_map_pair {g : String → ℚ} :
    ∀ (l : List String) (m : String), m ∈ l →
      (l.map fun x => (x, g x)).lookup m = some (g m) := by
  intro l m h
  induction l with
  | nil => simp at h
  | cons x xs ih =>
    by_cases hx : m = x
    · subst hx
      simp [List.lookup]
    · have hm : m ∈ xs := by
        rcases List.mem_cons.mp h with h1 | h1
        · exact absurd h1 hx
        · exact h1
      have hb : (m == x) = false := beq_false_of_ne hx
      simpa [List.lookup, hb] using ih hm

/-- A run whose rate check denies: the script stops right after the error
message, the limiter keeps only the check's own update. -/
theorem mainRun_rateLimited (env : Env) (rl : RateLimiter) (inp : RunInput)
    (user : String) (h1 : inp.sessionUser = some user)
    (h2 : inp.runBtn = true)
    (h3 : (check_limit rl user inp.now).1 = false) :
    mainRun env rl inp =
      ⟨[.login, .rateCheck user false, .rateLimitErrorMsg], .rateLimited,
       (check_limit rl user inp.now).2⟩ := by
  unfold mainRun
  rw [h1, h2]
  simp [h3]

/-- A run whose rate check allows but whose prompt is blank: the script
stops right after the warning; the limiter was still charged by the
check. -/
theorem mainRun_invalidPrompt (env : Env) (rl : RateLimiter) (inp : RunInput)
    (user : String) (h1 : inp.sessionUser = some user)
    (h2 : inp.runBtn = true)
    (h3 : (check_limit rl user inp.now).1 = true)
    (h4 : isBlank inp.prompt = true) :
    mainRun env rl inp =
      ⟨[.login, .rateCheck user true, .invalidPromptWarning], .invalidPrompt,
       (check_limit rl user inp.now).2⟩ := by
  unfold mainRun
  rw [h1, h2]
  simp [h3, h4]

/-- An accepted run with a non-empty response mapping: the full trace, in
the statement order of the source. -/
theorem mainRun_completed (env : Env) (rl : RateLimiter) (inp : RunInput)
    (user : String) (h1 : inp.sessionUser = some user)
    (h2 : inp.runBtn = true)
    (h3 : (check_limit rl user inp.now).1 = true)
    (h4 : isBlank inp.prompt = false)
    (h5 : ¬ env.run_parallel inp.prompt
      (env.choose_models (selectbox objectiveOptions inp.taskIdx)) = []) :
    mainRun env rl inp =
      ⟨[.login, .rateCheck user true,
        .selectModels (selectbox objectiveOptions inp.taskIdx)
          (env.choose_models (selectbox objectiveOptions inp.taskIdx)),
        .dispatch inp.prompt
          (env.choose_models (selectbox objectiveOptions inp.taskIdx)),
        .renderVisual ((env.run_parallel inp.prompt
          (env.choose_models (selectbox objectiveOptions inp.taskIdx))).enum.map
            fun p => (p.1, p.2.1, p.2.2)),
        .renderJson (env.run_parallel inp.prompt
          (env.choose_models (selectbox objectiveOptions inp.taskIdx))),
        .reportGenerated inp.prompt (env.run_parallel inp.prompt
          (env.choose_models (selectbox objectiveOptions inp.taskIdx))),
        .costMetricShown estimatedCostText,
        performanceTab inp.metricsExists inp.metrics],
       .completed, (check_limit rl user inp.now).2⟩ := by
  unfold mainRun
  rw [h1, h2]
  have hlen : ¬ (env.run_parallel inp.prompt
      (env.choose_models (selectbox objectiveOptions inp.taskIdx))).length = 0 := by
    simpa [List.length_eq_zero] using h5
  simp [h3, h4, visualTab, st_columns, hlen]

/-- Exhaustive case analysis of the traces `mainRun` can produce: the bare
login trace (no user, or button not pressed), the rate-limited trace, the
invalid-prompt trace, the trace cut short by `st.columns(0)`, or the full
completed trace. -/
theorem mainRun_trace_cases (env : Env) (rl : RateLimiter) (inp : RunInput) :
    (mainRun env rl inp).trace = [.login] ∨
    ∃ user, inp.sessionUser = some user ∧
      ((mainRun env rl inp).trace
          = [.login, .rateCheck user false, .rateLimitErrorMsg] ∨
       (mainRun env rl inp).trace
          = [.login, .rateCheck user true, .invalidPromptWarning] ∨
       (mainRun env rl inp).trace
          = [.login, .rateCheck user true,
             .selectModels (selectbox objectiveOptions inp.taskIdx)
               (env.choose_models (selectbox objectiveOptions inp.taskIdx)),
             .dispatch inp.prompt
               (env.choose_models (selectbox objectiveOptions inp.taskIdx))] ∨
       (mainRun env rl inp).trace
          = [.login, .rateCheck user true,
             .selectModels (selectbox objectiveOptions inp.taskIdx)
               (env.choose_models (selectbox objectiveOptions inp.taskIdx)),
             .dispatch inp.prompt
               (env.choose_models (selectbox objectiveOptions inp.taskIdx)),
             .renderVisual ((env.run_parallel inp.prompt
               (env.choose_models (selectbox objectiveOptions inp.taskIdx))).enum.map
                 fun p => (p.1, p.2.1, p.2.2)),
             .renderJson (env.run_parallel inp.prompt
               (env.choose_models (selectbox objectiveOptions inp.taskIdx))),
             .reportGenerated inp.prompt (env.run_parallel inp.prompt
               (env.choose_models (selectbox objectiveOptions inp.taskIdx))),
             .costMetricShown estimatedCostText,
             performanceTab inp.metricsExists inp.metrics]) := by
  obtain ⟨su, ti, pr, rb, mt, mk, nw, me, mr⟩ := inp
  rcases su with _ | user
  · exact Or.inl rfl
  · rcases rb with _ | _
    · exact Or.inl rfl
    · refine Or.inr ⟨user, rfl, ?_⟩
      rcases hcl : (check_limit rl user nw).1 with _ | _
      · refine Or.inl ?_
        simp only [mainRun]
        simp [hcl]
      · by_cases hp : isBlank pr = true
        · refine Or.inr (Or.inl ?_)
          simp only [mainRun]
          simp [hcl, hp]
        · by_cases hr : env.run_parallel pr
              (env.choose_models (selectbox objectiveOptions ti)) = []
          · refine Or.inr (Or.inr (Or.inl ?_))
            have hv : visualTab (env.run_parallel pr
                (env.choose_models (selectbox objectiveOptions ti)))
                = .error
                  "The input argument to st.columns must be a positive integer." := by
              simp [visualTab, st_columns, hr]
            simp only [mainRun]
            simp [hcl, hp, hv]
          · refine Or.inr (Or.inr (Or.inr ?_))
            have hlen : ¬ (env.run_parallel pr
                (env.choose_models (selectbox objectiveOptions ti))).length = 0 := by
              simpa [List.length_eq_zero] using hr
            have hv : visualTab (env.run_parallel pr
                (env.choose_models (selectbox objectiveOptions ti)))
                = .ok ((env.run_parallel pr
                    (env.choose_models (selectbox objectiveOptions ti))).enum.map
                      fun p => (p.1, p.2.1, p.2.2)) := by
              simp [visualTab, st_columns, hlen]
            simp only [mainRun]
            simp [hcl, hp, hv]

/-- C1 fails on the code as stated: for a whitespace-only prompt the
warning is surfaced before dispatch and no backend is called, but the rate
limiter IS charged, because `check_limit` runs before the prompt check
(`src/app.py:165` before `src/app.py:169`).  Concretely, a blank-prompt run
by user "u1" against a fresh limiter leaves a window of count 1 for
"u1". -/
theorem C1_counterexample :
    (mainRun envEcho rl0 inpBlank).trace
        = [.login, .rateCheck "u1" true, .invalidPromptWarning]
      ∧ (mainRun envEcho rl0 inpBlank).outcome = .invalidPrompt
      ∧ rl0.states "u1" = none
      ∧ (mainRun envEcho rl0 inpBlank).limiter.states "u1" = some ⟨0, 1⟩ :=
  ⟨rfl, rfl, rfl, rfl⟩

/-- C1 (amended): a run whose prompt is empty or whitespace-only is
rejected with the warning before any model selection or dispatch and no
backend call is made, but the rate limiter is charged for the attempt: the
rate-limit check runs first, and the resulting limiter state is exactly the
state after that check. -/
theorem C1_invalid_prompt_run (env : Env) (rl : RateLimiter) (inp : RunInput)
    (user : String) (h1 : inp.sessionUser = some user)
    (h2 : inp.runBtn = true)
    (h3 : (check_limit rl user inp.now).1 = true)
    (h4 : isBlank inp.prompt = true) :
    (mainRun env rl inp).trace
        = [.login, .rateCheck user true, .invalidPromptWarning]
      ∧ (mainRun env rl inp).outcome = .invalidPrompt
      ∧ (mainRun env rl inp).limiter = (check_limit rl user inp.now).2 := by
  rw [mainRun_invalidPrompt env rl inp user h1 h2 h3 h4]
  exact ⟨rfl, rfl, rfl⟩

/-- C1, witnessed at the blank-prompt run of user "u1". -/
theorem C1_witness :
    (mainRun envEcho rl0 inpBlank).trace
        = [.login, .rateCheck "u1" true, .invalidPromptWarning]
      ∧ (mainRun envEcho rl0 inpBlank).outcome = .invalidPrompt
      ∧ (mainRun envEcho rl0 inpBlank).limiter
          = (check_limit rl0 "u1" inpBlank.now).2 :=
  C1_invalid_prompt_run envEcho rl0 inpBlank "u1" rfl rfl (by decide) (by decide)

/-- C4: when the rate check denies the caller, the run fails immediately
with the rate-limit error and performs no model selection, no dispatch and
no report generation; the only state change is the rate check's own update
of the limiter. -/
theorem C4_rate_limited_halts (env : Env) (rl : RateLimiter) (inp : RunInput)
    (user : String) (h1 : inp.sessionUser = some user)
    (h2 : inp.runBtn = true)
    (h3 : (check_limit rl user inp.now).1 = false) :
    (mainRun env rl inp).trace
        = [.login, .rateCheck user false, .rateLimitErrorMsg]
      ∧ (mainRun env rl inp).outcome = .rateLimited
      ∧ (mainRun env rl inp).limiter = (check_limit rl user inp.now).2 := by
  rw [mainRun_rateLimited env rl inp user h1 h2 h3]
  exact ⟨rfl, rfl, rfl⟩

/-- C4, witnessed at a run of user "u1" against a limiter whose window is
already at its limit. -/
theorem C4_witness :
    (mainRun envEcho rlFull inp0).trace
        = [.login, .rateCheck "u1" false, .rateLimitErrorMsg]
      ∧ (mainRun envEcho rlFull inp0).outcome = .rateLimited
      ∧ (mainRun envEcho rlFull inp0).limiter
          = (check_limit rlFull "u1" inp0.now).2 :=
  C4_rate_limited_halts envEcho rlFull inp0 "u1" rfl rfl (by
    show (check_limit rlFull "u1" 0).1 = false
    unfold check_limit rlFull
    norm_num)

/-- C2 fails on the code as stated: `run_parallel` is called with the
prompt and the model list only (`src/app.py:176`) — the sidebar temperature
and max-tokens values (`src/app.py:123-124`) are never passed.  Two runs
that differ only in temperature and max tokens make literally the same
backend invocation and produce the same trace. -/
theorem C2_counterexample :
    ¬ inp0.modelTemp = inpHot.modelTemp
      ∧ ¬ inp0.maxTokens = inpHot.maxTokens
      ∧ Event.dispatch "hi" ["m1", "m2"] ∈ (mainRun envEcho rl0 inp0).trace
      ∧ (mainRun envEcho rl0 inp0).trace = (mainRun envEcho rl0 inpHot).trace := by
  refine ⟨by norm_num [inp0, inpHot], by decide, by decide, rfl⟩

/-- C2 (amended): every dispatched run invokes the backends with the
shared prompt and the router's model list, and with nothing else: the
dispatch call carries exactly the prompt and the selected models, and the
run's trace is unchanged when the request's temperature and max_tokens are
replaced by any other values. -/
theorem C2_dispatch_args (env : Env) (rl : RateLimiter) (inp : RunInput)
    (t : ℚ) (k : ℤ) (p : String) (ms : List String)
    (hd : Event.dispatch p ms ∈ (mainRun env rl inp).trace) :
    p = inp.prompt
      ∧ ms = env.choose_models (selectbox objectiveOptions inp.taskIdx)
      ∧ (mainRun env rl ⟨inp.sessionUser, inp.taskIdx, inp.prompt, inp.runBtn,
          t, k, inp.now, inp.metricsExists, inp.metrics⟩).trace
          = (mainRun env rl inp).trace := by
  have hind : (mainRun env rl ⟨inp.sessionUser, inp.taskIdx, inp.prompt,
      inp.runBtn, t, k, inp.now, inp.metricsExists, inp.metrics⟩).trace
      = (mainRun env rl inp).trace := by
    obtain ⟨su, ti, pr, rb, mt, mk, nw, me, mr⟩ := inp
    rcases su with _ | user
    · rfl
    · rcases rb with _ | _
      · rfl
      · rfl
  rcases mainRun_trace_cases env rl inp with hc | ⟨user, _, hc | hc | hc | hc⟩ <;>
      rw [hc] at hd <;> simp at hd
  · exact ⟨hd.1, hd.2, hind⟩
  · rcases hd with hd | habs
    · exact ⟨hd.1, hd.2, hind⟩
    · exfalso
      unfold performanceTab at habs
      split at habs <;> simp at habs

/-- C2, witnessed at the concrete run of user "u1" with prompt "hi". -/
theorem C2_witness :
    "hi" = inp0.prompt
      ∧ ["m1", "m2"] = envEcho.choose_models (selectbox objectiveOptions inp0.taskIdx)
      ∧ (mainRun envEcho rl0 ⟨inp0.sessionUser, inp0.taskIdx, inp0.prompt,
          inp0.runBtn, 1, 4096, inp0.now, inp0.metricsExists, inp0.metrics⟩).trace
          = (mainRun envEcho rl0 inp0).trace :=
  C2_dispatch_args envEcho rl0 inp0 1 4096 "hi" ["m1", "m2"] (by decide)

/-- C3 fails on the code as stated: the order is rate check, selection,
dispatch — but the results are presented before report generation runs.
In the concrete run, the "Visual" result view is trace position 4 and
`generate_report` is trace position 6: presentation is not last. -/
theorem C3_counterexample :
    (mainRun envEcho rl0 inp0).trace
        = [.login, .rateCheck "u1" true, .selectModels "General" ["m1", "m2"],
           .dispatch "hi" ["m1", "m2"],
           .renderVisual [(0, "m1", "hi"), (1, "m2", "hi")],
           .renderJson [("m1", "hi"), ("m2", "hi")],
           .reportGenerated "hi" [("m1", "hi"), ("m2", "hi")],
           .costMetricShown "$0.0042", .noMetricsWarning]
      ∧ (mainRun envEcho rl0 inp0).trace.get? 4
          = some (.renderVisual [(0, "m1", "hi"), (1, "m2", "hi")])
      ∧ (mainRun envEcho rl0 inp0).trace.get? 6
          = some (.reportGenerated "hi" [("m1", "hi"), ("m2", "hi")]) :=
  ⟨rfl, rfl, rfl⟩

/-- C3 (amended): every accepted run performs, in exactly this order: the
rate-limit check for the caller identity, model selection for the
objective, parallel dispatch of the prompt to the selected models, the
rendering of the visual and raw-JSON result views, report generation over
the responses, the cost metric, and the performance view — so report
generation happens after the results are first presented, not before. -/
theorem C3_step_order (env : Env) (rl : RateLimiter) (inp : RunInput)
    (user : String) (h1 : inp.sessionUser = some user)
    (h2 : inp.runBtn = true)
    (h3 : (check_limit rl user inp.now).1 = true)
    (h4 : isBlank inp.prompt = false)
    (h5 : ¬ env.run_parallel inp.prompt
      (env.choose_models (selectbox objectiveOptions inp.taskIdx)) = []) :
    (mainRun env rl inp).trace
      = [.login, .rateCheck user true,
         .selectModels (selectbox objectiveOptions inp.taskIdx)
           (env.choose_models (selectbox objectiveOptions inp.taskIdx)),
         .dispatch inp.prompt
           (env.choose_models (selectbox objectiveOptions inp.taskIdx)),
         .renderVisual ((env.run_parallel inp.prompt
           (env.choose_models (selectbox objectiveOptions inp.taskIdx))).enum.map
             fun p => (p.1, p.2.1, p.2.2)),
         .renderJson (env.run_parallel inp.prompt
           (env.choose_models (selectbox objectiveOptions inp.taskIdx))),
         .reportGenerated inp.prompt (env.run_parallel inp.prompt
           (env.choose_models (selectbox objectiveOptions inp.taskIdx))),
         .costMetricShown estimatedCostText,
         performanceTab inp.metricsExists inp.metrics] := by
  rw [mainRun_completed env rl inp user h1 h2 h3 h4 h5]

/-- C3, witnessed at the concrete accepted run of user "u1". -/
theorem C3_witness :
    (mainRun envEcho rl0 inp0).trace
      = [.login, .rateCheck "u1" true,
         .selectModels (selectbox objectiveOptions inp0.taskIdx)
           (envEcho.choose_models (selectbox objectiveOptions inp0.taskIdx)),
         .dispatch inp0.prompt
           (envEcho.choose_models (selectbox objectiveOptions inp0.taskIdx)),
         .renderVisual ((envEcho.run_parallel inp0.prompt
           (envEcho.choose_models (selectbox objectiveOptions inp0.taskIdx))).enum.map
             fun p => (p.1, p.2.1, p.2.2)),
         .renderJson (envEcho.run_parallel inp0.prompt
           (envEcho.choose_models (selectbox objectiveOptions inp0.taskIdx))),
         .reportGenerated inp0.prompt (envEcho.run_parallel inp0.prompt
           (envEcho.choose_models (selectbox objectiveOptions inp0.taskIdx))),
         .costMetricShown estimatedCostText,
         performanceTab inp0.metricsExists inp0.metrics] :=
  C3_step_order envEcho rl0 inp0 "u1" rfl rfl (by decide) (by decide) (by decide)

/-- C5: the objective handed to model selection is always one of the four
values of the "Target Objective" selectbox — {General, Coding,
Fast Response, Cost Saving} — and nothing else, since `st.selectbox`
returns one of its options. -/
theorem C5_objective_enumerated (env : Env) (rl : RateLimiter)
    (inp : RunInput) (t : String) (ms : List String)
    (h : Event.selectModels t ms ∈ (mainRun env rl inp).trace) :
    t ∈ objectiveOptions := by
  rcases mainRun_trace_cases env rl inp with hc | ⟨user, _, hc | hc | hc | hc⟩ <;>
    rw [hc] at h <;> simp at h
  · obtain ⟨ht, _⟩ := h
    subst ht
    exact List.get_mem objectiveOptions inp.taskIdx.1 inp.taskIdx.2
  · rcases h with ⟨ht, _⟩ | habs
    · subst ht
      exact List.get_mem objectiveOptions inp.taskIdx.1 inp.taskIdx.2
    · exfalso
      unfold performanceTab at habs
      split at habs <;> simp at habs

/-- C5, witnessed at the concrete run selecting objective "General". -/
theorem C5_witness : "General" ∈ objectiveOptions :=
  C5_objective_enumerated envEcho rl0 inp0 "General" ["m1", "m2"] (by decide)

/-- C6: the performance view's per-model averages are arithmetic means:
for every model occurring in the records, the grouped latency chart value
is the mean of that model's latencies and the grouped length chart value is
the mean of that model's response lengths. -/
theorem C6_group_means (records : List MetricRecord) (m : String)
    (h : m ∈ metricModels records) :
    (groupMean records fun r => r.latency).lookup m
        = some (arithMean
            ((records.filter fun r => r.model == m).map fun r => r.latency))
      ∧ (groupMean records fun r => r.responseLength).lookup m
        = some (arithMean
            ((records.filter fun r => r.model == m).map fun r => r.responseLength)) :=
  ⟨lookup_map_pair (metricModels records) m h,
   lookup_map_pair (metricModels records) m h⟩

/-- C6, witnessed at three records for model "A" with latencies 0.1, 0.2,
0.3 (mean 0.2) and response lengths 5, 7, 9 (mean 7). -/
theorem C6_witness :
    (groupMean recsA fun r => r.latency).lookup "A" = some (1/5 : ℚ)
      ∧ (groupMean recsA fun r => r.responseLength).lookup "A" = some (7 : ℚ) := by
  refine ⟨?_, ?_⟩
  · rw [(C6_group_means recsA "A" (by decide)).1]
    norm_num [arithMean, recsA]
  · rw [(C6_group_means recsA "A" (by decide)).2]
    norm_num [arithMean, recsA]

/-- C7: whenever the estimated-cost metric is shown it shows the fixed
placeholder "$0.0042" (`src/app.py:209`); any two runs that show it show
the same value, regardless of prompt, models or responses. -/
theorem C7_cost_constant (env1 : Env) (rl1 : RateLimiter) (inp1 : RunInput)
    (env2 : Env) (rl2 : RateLimiter) (inp2 : RunInput) (v1 v2 : String)
    (h1 : Event.costMetricShown v1 ∈ (mainRun env1 rl1 inp1).trace)
    (h2 : Event.costMetricShown v2 ∈ (mainRun env2 rl2 inp2).trace) :
    v1 = estimatedCostText ∧ v2 = estimatedCostText ∧ v1 = v2 := by
  have key : ∀ (env : Env) (rl : RateLimiter) (inp : RunInput) (v : String),
      Event.costMetricShown v ∈ (mainRun env rl inp).trace →
        v = estimatedCostText := by
    intro env rl inp v h
    rcases mainRun_trace_cases env rl inp with hc | ⟨user, _, hc | hc | hc | hc⟩ <;>
      rw [hc] at h <;> simp at h
    rcases h with h | habs
    · exact h
    · exfalso
      unfold performanceTab at habs
      split at habs <;> simp at habs
  have e1 := key env1 rl1 inp1 v1 h1
  have e2 := key env2 rl2 inp2 v2 h2
  exact ⟨e1, e2, e1.trans e2.symm⟩

/-- C7, witnessed at two concrete runs with different request
parameters. -/
theorem C7_witness :
    "$0.0042" = estimatedCostText ∧ "$0.0042" = estimatedCostText
      ∧ ("$0.0042" : String) = "$0.0042" :=
  C7_cost_constant envEcho rl0 inp0 envEcho rl0 inpHot "$0.0042" "$0.0042"
    (by decide) (by decide)

/-- C8: any dispatch happens only with a caller identity established
beforehand — a dispatch event implies the session user is present, and the
rate check of the same run is keyed by exactly that identity.  (When no
identity is present, `mainRun` halts at login, so no dispatch occurs.) -/
theorem C8_identity_before_dispatch (env : Env) (rl : RateLimiter)
    (inp : RunInput) (p : String) (ms : List String)
    (hd : Event.dispatch p ms ∈ (mainRun env rl inp).trace) :
    ¬ inp.sessionUser = none
      ∧ ∀ user, inp.sessionUser = some user →
          Event.rateCheck user true ∈ (mainRun env rl inp).trace := by
  rcases mainRun_trace_cases env rl inp with hc | ⟨user, hu, hc | hc | hc | hc⟩ <;>
    rw [hc] at hd <;> simp at hd
  · refine ⟨by simp [hu], ?_⟩
    intro u huser
    have : user = u := by
      rw [hu] at huser
      exact Option.some.inj huser
    subst this
    rw [hc]
    simp
  · rcases hd with hd | habs
    · refine ⟨by simp [hu], ?_⟩
      intro u huser
      have : user = u := by
        rw [hu] at huser
        exact Option.some.inj huser
      subst this
      rw [hc]
      simp
    · exfalso
      unfold performanceTab at habs
      split at habs <;> simp at habs

/-- C8, witnessed at the concrete dispatched run of user "u1". -/
theorem C8_witness :
    ¬ inp0.sessionUser = none
      ∧ Event.rateCheck "u1" true ∈ (mainRun envEcho rl0 inp0).trace :=
  ⟨(C8_identity_before_dispatch envEcho rl0 inp0 "hi" ["m1", "m2"] (by decide)).1,
   (C8_identity_before_dispatch envEcho rl0 inp0 "hi" ["m1", "m2"] (by decide)).2
     "u1" rfl⟩

/-- C9: when `data/metrics/metrics.csv` does not exist, the performance
view shows "No metrics available." and renders no charts (no read or
aggregation happens), and the run as a whole still completes. -/
theorem C9_no_metrics_file (env : Env) (rl : RateLimiter) (inp : RunInput)
    (user : String) (h1 : inp.sessionUser = some user)
    (h2 : inp.runBtn = true)
    (h3 : (check_limit rl user inp.now).1 = true)
    (h4 : isBlank inp.prompt = false)
    (h5 : ¬ env.run_parallel inp.prompt
      (env.choose_models (selectbox objectiveOptions inp.taskIdx)) = [])
    (h6 : inp.metricsExists = false) :
    (mainRun env rl inp).outcome = .completed
      ∧ Event.noMetricsWarning ∈ (mainRun env rl inp).trace
      ∧ ∀ a b, ¬ Event.metricsCharts a b ∈ (mainRun env rl inp).trace := by
  rw [mainRun_completed env rl inp user h1 h2 h3 h4 h5]
  refine ⟨rfl, ?_, ?_⟩
  · simp [performanceTab, h6]
  · intro a b hmem
    simp [performanceTab, h6] at hmem

/-- C9, witnessed at the concrete run whose metrics file is absent. -/
theorem C9_witness :
    (mainRun envEcho rl0 inp0).outcome = .completed
      ∧ Event.noMetricsWarning ∈ (mainRun envEcho rl0 inp0).trace
      ∧ ¬ Event.metricsCharts [] [] ∈ (mainRun envEcho rl0 inp0).trace := by
  have h := C9_no_metrics_file envEcho rl0 inp0 "u1" rfl rfl (by decide)
    (by decide) (by decide) rfl
  exact ⟨h.1, h.2.1, h.2.2 [] []⟩

/-- C10: the visual results view builds exactly one column per entry of the
response mapping, so for an empty mapping the column construction fails
(`st.columns(0)` raises); for a non-empty mapping one card is rendered per
entry, card i in column i, and projecting the cards back to (model, text)
pairs returns the mapping in its insertion order. -/
theorem C10_visual_columns (responses : List (String × String)) :
    visualTab responses
      = (if responses = [] then
          .error "The input argument to st.columns must be a positive integer."
        else .ok (responses.enum.map fun p => (p.1, p.2.1, p.2.2)))
      ∧ (responses.enum.map fun p => (p.1, p.2.1, p.2.2)).map
          (fun c => (c.2.1, c.2.2)) = responses := by
  constructor
  · by_cases h : responses = []
    · subst h
      rfl
    · have hlen : ¬ responses.length = 0 := by
        simpa [List.length_eq_zero] using h
      simp [visualTab, st_columns, hlen, h]
  · have hcomp : ((fun c : ℕ × String × String => (c.2.1, c.2.2)) ∘
        fun p : ℕ × (String × String) => (p.1, p.2.1, p.2.2))
        = fun p : ℕ × (String × String) => p.2 := by
      funext p
      rfl
    rw [List.map_map, hcomp]
    exact List.enum_map_snd responses

end LLMNexus
